import Mathlib

/-!
Shallow embedding of the auth-flow-store package.

The embedding models:
  * `model.py`: the `AuthFlow` entity (field set from the class body) together
    with its construction-time validation (the URL-typed field annotations and
    the `_require_secret_for_standard` field validator);
  * `service.py`: the `AuthFlowStore` operations `create`, `get_by_id`,
    `get_by_name_first`, `list_by_name`, `set_active`, `update`.

The persistence session is modelled as an explicit state: a list of rows in
insertion order plus a fresh-id counter (the primary key generated by the
lifecycle mixin is modelled as a `Nat`; UUID values are modelled as `Nat`).
`flush` stages changes into that list; commit/rollback are outside the
component and are not modelled.  Operations return their Python value paired
with the post-call state.

URL well-formedness (pydantic `AnyUrl` / `AnyHttpUrl`) is modelled shallowly:
a URL is well-formed when it has a nonempty scheme, the literal separator
`://`, and a nonempty remainder; an HTTP URL additionally has scheme `http`
or `https`.  The claims depend only on the control flow around validity, not
on the exact URL grammar.  The `update` operation performs plain attribute
assignment in the source (no entity construction and no
`validate_assignment` configuration), so the embedded `update` applies raw
values, mirroring the source.
-/

/-- `TokenIssuerType` enum from `model.py`. -/
inductive TokenIssuerType where
  | PKCE
  | STANDARD
deriving DecidableEq

/-- The `AuthFlow` entity: fields in the order of the class body of
`model.py`, preceded by the mixin-provided identity/metadata fields that the
store's operations touch (`id`, `created_by`, `is_active`).  Secrets are
plain strings here (`SecretStr` masking is display-only). -/
structure AuthFlow where
  id : Nat
  created_by : Option Nat
  is_active : Bool
  name : String
  issuer_type : TokenIssuerType
  identity_provider : String
  response_type : String
  scope : String
  client_id : String
  redirect_uri : String
  authorize_url : String
  token_url : String
  client_secret : Option String
  idp_prefix : String
  timeout : Int
  cdp_endpoint : String
  cdp_headers : Option (List (String × String))
  cdp_gui_base_url : Option String
  browserless_base_url : String
deriving DecidableEq

/-- Split a character list at the first occurrence of the literal `://`,
returning the scheme part and the remainder. -/
def splitScheme : List Char → Option (List Char × List Char)
  | [] => none
  | ':' :: '/' :: '/' :: rest => some ([], rest)
  | c :: rest =>
      match splitScheme rest with
      | none => none
      | some (a, b) => some (c :: a, b)

/-- Model of pydantic `AnyUrl` well-formedness: nonempty scheme, `://`,
nonempty remainder. -/
def isValidUrl (s : String) : Bool :=
  match splitScheme s.data with
  | some (scheme, rest) => !scheme.isEmpty && !rest.isEmpty
  | none => false

/-- Model of pydantic `AnyHttpUrl` well-formedness: `isValidUrl` with scheme
`http` or `https`. -/
def isValidHttpUrl (s : String) : Bool :=
  match splitScheme s.data with
  | some (scheme, rest) =>
      (scheme == "http".data || scheme == "https".data) && !rest.isEmpty
  | none => false

/-- The message raised by `AuthFlow._require_secret_for_standard`. -/
def secretRequiredMsg : String :=
  "client_secret is required when issuer_type is STANDARD"

/-- The `_require_secret_for_standard` check: a `STANDARD` issuer with an
absent or falsy (empty) secret is rejected (`not v` in the source). -/
def secretOk (t : TokenIssuerType) (v : Option String) : Bool :=
  match t with
  | TokenIssuerType.PKCE => true
  | TokenIssuerType.STANDARD =>
      match v with
      | none => false
      | some s => !(s == "")

/-- Keyword arguments of `AuthFlowStore.create`, with the source defaults. -/
structure CreateParams where
  name : String
  issuer_type : TokenIssuerType := TokenIssuerType.PKCE
  identity_provider : String := "Google"
  response_type : String := "code"
  scope : String := "openid email profile"
  client_id : String
  redirect_uri : String
  authorize_url : String
  token_url : String
  client_secret : Option String := none
  idp_prefix : String
  timeout : Int := 60
  cdp_endpoint : String
  cdp_headers : Option (List (String × String)) := none
  cdp_gui_base_url : Option String := none
  browserless_base_url : String := ""
  created_by : Option Nat := none
  is_active : Bool := true

/-- Validation errors raised when constructing an `AuthFlow`, in field order
(pydantic collects every failing field): the URL-typed fields
`redirect_uri`, `authorize_url`, `token_url` (each `AnyHttpUrl`), the
`client_secret` field validator, ` idp_prefix` (`AnyHttpUrl`),
`cdp_endpoint` (`AnyUrl`), `cdp_gui_base_url` (optional `AnyHttpUrl`),
`browserless_base_url` (`AnyHttpUrl`). -/
def constructionErrors (p : CreateParams) : List String :=
  (if isValidHttpUrl p.redirect_uri then [] else ["redirect_uri: invalid URL"]) ++
  (if isValidHttpUrl p.authorize_url then [] else ["authorize_url: invalid URL"]) ++
  (if isValidHttpUrl p.token_url then [] else ["token_url: invalid URL"]) ++
  (if secretOk p.issuer_type p.client_secret then [] else [secretRequiredMsg]) ++
  (if isValidHttpUrl (CreateParams.idp_prefix p) then [] else ["idp_prefix: invalid URL"]) ++
  (if isValidUrl p.cdp_endpoint then [] else ["cdp_endpoint: invalid URL"]) ++
  (match p.cdp_gui_base_url with
   | none => []
   | some u => if isValidHttpUrl u then [] else ["cdp_gui_base_url: invalid URL"]) ++
  (if isValidHttpUrl p.browserless_base_url then [] else ["browserless_base_url: invalid URL"])

/-- The row a successful construction yields: the given field values plus
the identifier assigned at creation. -/
def newRow (newId : Nat) (p : CreateParams) : AuthFlow :=
  { id := newId
    created_by := p.created_by
    is_active := p.is_active
    name := p.name
    issuer_type := p.issuer_type
    identity_provider := p.identity_provider
    response_type := p.response_type
    scope := p.scope
    client_id := p.client_id
    redirect_uri := p.redirect_uri
    authorize_url := p.authorize_url
    token_url := p.token_url
    client_secret := p.client_secret
    idp_prefix := CreateParams.idp_prefix p
    timeout := p.timeout
    cdp_endpoint := p.cdp_endpoint
    cdp_headers := p.cdp_headers
    cdp_gui_base_url := p.cdp_gui_base_url
    browserless_base_url := p.browserless_base_url }

/-- Constructing an `AuthFlow` row: validation happens first; on success the
result is `newRow`. -/
def mkAuthFlow (newId : Nat) (p : CreateParams) : Except (List String) AuthFlow :=
  if constructionErrors p = [] then Except.ok (newRow newId p)
  else Except.error (constructionErrors p)

/-- The persistence session's working state: staged rows in insertion order
plus the next primary-key value the lifecycle mixin will assign. -/
structure StoreState where
  rows : List AuthFlow
  nextId : Nat
deriving DecidableEq

/-- Keyword arguments of `AuthFlowStore.update`: every field optional, `none`
meaning "leave unchanged" (the source applies a field only under
`is not None`). -/
structure UpdateParams where
  name : Option String := none
  issuer_type : Option TokenIssuerType := none
  identity_provider : Option String := none
  response_type : Option String := none
  scope : Option String := none
  client_id : Option String := none
  redirect_uri : Option String := none
  authorize_url : Option String := none
  token_url : Option String := none
  client_secret : Option String := none
  idp_prefix : Option String := none
  timeout : Option Int := none
  cdp_endpoint : Option String := none
  cdp_headers : Option (List (String × String)) := none
  cdp_gui_base_url : Option String := none
  browserless_base_url : Option String := none
  is_active : Option Bool := none
deriving DecidableEq

/-- The body of `AuthFlowStore.update` after the row lookup: each parameter
that `is not None` overwrites the corresponding attribute by plain
assignment (no validation).  Optional-valued attributes can only be set to a
present value, never cleared. -/
def applyUpdate (p : UpdateParams) (r : AuthFlow) : AuthFlow :=
  { r with
    name := p.name.getD r.name
    issuer_type := p.issuer_type.getD r.issuer_type
    identity_provider := p.identity_provider.getD r.identity_provider
    response_type := p.response_type.getD r.response_type
    scope := p.scope.getD r.scope
    client_id := p.client_id.getD r.client_id
    redirect_uri := p.redirect_uri.getD r.redirect_uri
    authorize_url := p.authorize_url.getD r.authorize_url
    token_url := p.token_url.getD r.token_url
    client_secret :=
      match p.client_secret with
      | none => r.client_secret
      | some v => some v
    idp_prefix := Option.getD (UpdateParams.idp_prefix p) (AuthFlow.idp_prefix r)
    timeout := p.timeout.getD r.timeout
    cdp_endpoint := p.cdp_endpoint.getD r.cdp_endpoint
    cdp_headers :=
      match p.cdp_headers with
      | none => r.cdp_headers
      | some v => some v
    cdp_gui_base_url :=
      match p.cdp_gui_base_url with
      | none => r.cdp_gui_base_url
      | some v => some v
    browserless_base_url := p.browserless_base_url.getD r.browserless_base_url
    is_active := p.is_active.getD r.is_active }

/-- Replace the first element satisfying `p` by its image under `f`
(the staged in-place mutation of the row returned by the primary-key
lookup). -/
def updateFirst (p : α → Bool) (f : α → α) : List α → List α
  | [] => []
  | x :: xs => if p x then f x :: xs else x :: updateFirst p f xs

/-- Three-valued `is_active` filter combined with the exact `name` match used
by `get_by_name_first` and `list_by_name`. -/
def matchesFilter (name : String) (isActive : Option Bool) (r : AuthFlow) : Bool :=
  r.name == name &&
    match isActive with
    | none => true
    | some b => r.is_active == b

namespace AuthFlowStore

/-- `AuthFlowStore.create`: construct the row (validation happens here,
before any persistence interaction), then `add` + `flush` stage it.  On a
validation error the state is returned unchanged. -/
def create (s : StoreState) (p : CreateParams) :
    Except (List String) AuthFlow × StoreState :=
  match mkAuthFlow s.nextId p with
  | Except.error es => (Except.error es, s)
  | Except.ok row =>
      (Except.ok row, { rows := s.rows ++ [row], nextId := s.nextId + 1 })

/-- `AuthFlowStore.get_by_id`: primary-key lookup, absent result on miss. -/
def get_by_id (s : StoreState) (flowId : Nat) : Option AuthFlow :=
  s.rows.find? (fun r => r.id == flowId)

/-- `AuthFlowStore.get_by_name_first`: first row matching the name and the
optional activity filter. -/
def get_by_name_first (s : StoreState) (name : String) (isActive : Option Bool) :
    Option AuthFlow :=
  (s.rows.filter (matchesFilter name isActive)).head?

/-- `AuthFlowStore.list_by_name`: the matching rows, skipping `offset` and
truncated to `limit` (source defaults: `limit = 50`, `offset = 0`). -/
def list_by_name (s : StoreState) (name : String) (isActive : Option Bool)
    (limit offset : Nat) : List AuthFlow :=
  ((s.rows.filter (matchesFilter name isActive)).drop offset).take limit

/-- `AuthFlowStore.set_active`: look up by id; on miss return absent and
leave the state alone; otherwise flip exactly that row's flag and return the
updated entity. -/
def set_active (s : StoreState) (flowId : Nat) (v : Bool) :
    Option AuthFlow × StoreState :=
  match s.rows.find? (fun r => r.id == flowId) with
  | none => (none, s)
  | some r =>
      (some { r with is_active := v },
       { s with
         rows := updateFirst (fun x => x.id == flowId)
           (fun _ => { r with is_active := v }) s.rows })

/-- `AuthFlowStore.update`: look up by id; on miss return absent and leave
the state alone; otherwise apply the non-`None` parameters by plain
assignment and return the updated entity. -/
def update (s : StoreState) (flowId : Nat) (p : UpdateParams) :
    Option AuthFlow × StoreState :=
  match s.rows.find? (fun r => r.id == flowId) with
  | none => (none, s)
  | some r =>
      (some (applyUpdate p r),
       { s with
         rows := updateFirst (fun x => x.id == flowId)
           (fun _ => applyUpdate p r) s.rows })

end AuthFlowStore

/-- `update` parameters with every field left at the `None` sentinel. -/
def noChangeParams : UpdateParams := {}

/-- `update` parameters carrying only `is_active`. -/
def onlyActiveParams (v : Bool) : UpdateParams := { is_active := some v }

/-- A well-formed `create` request (PKCE defaults), used for concrete
evaluations. -/
def sampleCreate : CreateParams :=
  { name := "wemoney-login"
    client_id := "247ffs2l6um22baifm5o7nhkgh"
    redirect_uri := "https://app.wemoney.com.au/oauth_redirect"
    authorize_url := "https://idp.example.com/oauth2/authorize"
    token_url := "https://idp.example.com/oauth2/token"
    idp_prefix := "https://idp.example.com/oauth2/idpresponse"
    cdp_endpoint := "wss://browserless.example.com/?stealth=true"
    browserless_base_url := "https://browserless.example.com" }

/-- The same request with `issuer_type = STANDARD` and no `client_secret`. -/
def standardNoSecretCreate : CreateParams :=
  { sampleCreate with issuer_type := TokenIssuerType.STANDARD }

/-- A concrete stored row (identifier 0, active). -/
def sampleRow : AuthFlow :=
  { id := 0
    created_by := none
    is_active := true
    name := "wemoney-login"
    issuer_type := TokenIssuerType.PKCE
    identity_provider := "Google"
    response_type := "code"
    scope := "openid email profile"
    client_id := "c1"
    redirect_uri := "https://r.example.com/cb"
    authorize_url := "https://a.example.com/auth"
    token_url := "https://t.example.com/token"
    client_secret := some "s3cret"
    idp_prefix := "https://i.example.com/idp"
    timeout := 60
    cdp_endpoint := "wss://c.example.com/"
    cdp_headers := some [("x-test", "1")]
    cdp_gui_base_url := some "https://gui.example.com"
    browserless_base_url := "https://b.example.com" }

/-- A sibling row sharing the name (identifier 1, inactive). -/
def sampleRow2 : AuthFlow :=
  { sampleRow with id := 1, client_id := "c2", is_active := false }

/-- A concrete store: two rows sharing the name, next identifier 2. -/
def sampleState : StoreState := { rows := [sampleRow, sampleRow2], nextId := 2 }

/-- A `create` request carrying a malformed `authorize_url`. -/
def badUrlCreate : CreateParams := { sampleCreate with authorize_url := "not a url" }

/-- A `create` request that leaves `browserless_base_url` at the source
default, the empty string. -/
def emptyBrowserlessCreate : CreateParams :=
  { sampleCreate with browserless_base_url := "" }

/-- An `update` request carrying a malformed `authorize_url`. -/
def badUrlUpdate : UpdateParams := { authorize_url := some "not a url" }

/-- `sampleRow` after the malformed-URL update has been applied. -/
def badUrlRow : AuthFlow := { sampleRow with authorize_url := "not a url" }

/-- An `update` request that tries to "clear" `cdp_headers` by passing an
empty mapping (passing `None` would mean "leave unchanged"). -/
def clearAttemptUpdate : UpdateParams := { cdp_headers := some [] }

/-- `sampleRow` after `clearAttemptUpdate`: `cdp_headers` is still present. -/
def clearAttemptRow : AuthFlow := { sampleRow with cdp_headers := some [] }

/-- `sampleState` after `clearAttemptUpdate` on row 0. -/
def clearAttemptState : StoreState := { rows := [clearAttemptRow, sampleRow2], nextId := 2 }

/-- Row `i` of the pagination scenario: same name, active iff `i < 50`. -/
def pageRow (i : Nat) : AuthFlow :=
  { sampleRow with id := i, is_active := decide (i < 50) }

/-- A store holding 51 rows that share one name: 50 active, 1 inactive. -/
def pageState : StoreState :=
  { rows := (List.range 51).map pageRow, nextId := 51 }

theorem updateFirst_split (p : α → Bool) (f : α → α) (l : List α) (r : α)
    (h : l.find? p = some r) :
    ∃ l₁ l₂, l = l₁ ++ r :: l₂ ∧ (∀ x ∈ l₁, p x = false) ∧
      updateFirst p f l = l₁ ++ f r :: l₂ := by
  induction l with
  | nil => simp [List.find?] at h
  | cons x xs ih =>
      by_cases hx : p x = true
      · rw [List.find?_cons_of_pos xs hx] at h
        obtain rfl : x = r := by injection h
        exact ⟨[], xs, rfl, by simp, by simp [updateFirst, hx]⟩
      · rw [List.find?_cons_of_neg xs (by simpa using hx)] at h
        obtain ⟨l₁, l₂, hl, hall, hu⟩ := ih h
        refine ⟨x :: l₁, l₂, by simp [hl], ?_, by simp [updateFirst, hx, hu]⟩
        intro y hy
        rcases List.mem_cons.mp hy with hy | hy
        · subst hy
          exact Bool.not_eq_true _ ▸ (by simpa using hx)
        · exact hall y hy

theorem updateFirst_found_id (p : α → Bool) (l : List α) (r : α)
    (h : l.find? p = some r) : updateFirst p (fun _ => r) l = l := by
  obtain ⟨l₁, l₂, hl, _, hu⟩ := updateFirst_split p (fun _ => r) l r h
  rw [hu, ← hl]

theorem applyUpdate_noChange (r : AuthFlow) : applyUpdate noChangeParams r = r := rfl

theorem applyUpdate_onlyActive (v : Bool) (r : AuthFlow) :
    applyUpdate (onlyActiveParams v) r = { r with is_active := v } := rfl

/-- C4: `update(flow_id, field=None for every mutable field)` is a no-op:
it returns the row unchanged (the lookup's result) and leaves the stored
state exactly as it was. -/
theorem update_all_none_noop (s : StoreState) (flowId : Nat) :
    AuthFlowStore.update s flowId noChangeParams =
      (AuthFlowStore.get_by_id s flowId, s) := by
  unfold AuthFlowStore.update AuthFlowStore.get_by_id
  cases h : s.rows.find? (fun r => r.id == flowId) with
  | none => rfl
  | some r =>
      dsimp only
      rw [applyUpdate_noChange, updateFirst_found_id _ _ _ h]

theorem secret_msg_not_in_errors (p : CreateParams)
    (hok : secretOk p.issuer_type p.client_secret = true) :
    secretRequiredMsg ∉ constructionErrors p := by
  intro h
  rcases hcg : p.cdp_gui_base_url with _ | u <;>
    simp [constructionErrors, hok, hcg, secretRequiredMsg] at h

/-- C1: constructing an `AuthFlow` with `issuer_type = STANDARD` and an
absent or empty `client_secret` fails with a validation error carrying the
message "client_secret is required when issuer_type is STANDARD"; a `PKCE`
construction never produces that error, and its validation outcome does not
depend on the secret being absent. -/
theorem standard_requires_client_secret (p : CreateParams) :
    (p.issuer_type = TokenIssuerType.STANDARD →
      (p.client_secret = none ∨ p.client_secret = some "") →
        secretRequiredMsg ∈ constructionErrors p ∧
        ∀ s, AuthFlowStore.create s p = (Except.error (constructionErrors p), s)) ∧
    (p.issuer_type = TokenIssuerType.PKCE →
      secretRequiredMsg ∉ constructionErrors p ∧
      constructionErrors { p with client_secret := none } = constructionErrors p) := by
  constructor
  · intro hstd hsec
    have hko : secretOk p.issuer_type p.client_secret = false := by
      rw [hstd]
      rcases hsec with h | h <;> rw [h] <;> rfl
    have hmem : secretRequiredMsg ∈ constructionErrors p := by
      simp only [constructionErrors, hko]
      simp
    have hne : constructionErrors p ≠ [] := List.ne_nil_of_mem hmem
    exact ⟨hmem, fun s => by simp [AuthFlowStore.create, mkAuthFlow, hne]⟩
  · intro hpkce
    refine ⟨secret_msg_not_in_errors p (by rw [hpkce]; rfl), ?_⟩
    obtain ⟨n, it, idp, rt, sc, ci, ru, au, tu, cs, ip, tm, ce, ch, cg, bb, cb, ia⟩ := p
    cases hpkce
    rfl

theorem standard_requires_client_secret_witness :
    secretRequiredMsg ∈ constructionErrors standardNoSecretCreate ∧
    secretRequiredMsg ∉ constructionErrors sampleCreate :=
  ⟨((standard_requires_client_secret standardNoSecretCreate).1 rfl (Or.inl rfl)).1,
   ((standard_requires_client_secret sampleCreate).2 rfl).1⟩

/-- Counterexample to C2 as stated: an `update` call carrying the malformed
URL value "not a url" for `authorize_url` does not fail; it returns an
updated entity and stages the malformed value into the stored state. -/
theorem update_malformed_url_succeeds :
    isValidHttpUrl "not a url" = false ∧
    AuthFlowStore.update sampleState 0 badUrlUpdate =
      (some badUrlRow, { rows := [badUrlRow, sampleRow2], nextId := 2 }) ∧
    AuthFlow.authorize_url badUrlRow = "not a url" := by
  refine ⟨rfl, ?_, rfl⟩
  rfl

/-- C2 (amended): `create` with a malformed URL in any URL-typed field fails
with a validation error before any persistence interaction and leaves the
stored state unchanged; `update`, by contrast, performs no URL validation:
whatever string an update parameter carries is assigned to the row as-is. -/
theorem create_validates_urls_update_does_not :
    (∀ (s : StoreState) (p : CreateParams),
      (isValidHttpUrl p.redirect_uri = false ∨
       isValidHttpUrl p.authorize_url = false ∨
       isValidHttpUrl p.token_url = false ∨
       isValidHttpUrl (CreateParams.idp_prefix p) = false ∨
       isValidUrl p.cdp_endpoint = false ∨
       (∃ u, p.cdp_gui_base_url = some u ∧ isValidHttpUrl u = false) ∨
       isValidHttpUrl p.browserless_base_url = false) →
      AuthFlowStore.create s p = (Except.error (constructionErrors p), s)) ∧
    (∀ (s : StoreState) (flowId : Nat) (q : UpdateParams) (r' : AuthFlow)
       (s' : StoreState),
      AuthFlowStore.update s flowId q = (some r', s') →
      (∀ u, q.redirect_uri = some u → r'.redirect_uri = u) ∧
      (∀ u, q.authorize_url = some u → r'.authorize_url = u) ∧
      (∀ u, q.token_url = some u → r'.token_url = u) ∧
      (∀ u, UpdateParams.idp_prefix q = some u → AuthFlow.idp_prefix r' = u) ∧
      (∀ u, q.cdp_endpoint = some u → r'.cdp_endpoint = u) ∧
      (∀ u, q.cdp_gui_base_url = some u → r'.cdp_gui_base_url = some u) ∧
      (∀ u, q.browserless_base_url = some u → r'.browserless_base_url = u)) := by
  constructor
  · intro s p hbad
    have hne : constructionErrors p ≠ [] := by
      intro h
      simp only [constructionErrors, List.append_eq_nil] at h
      obtain ⟨⟨⟨⟨⟨⟨⟨h1, h2⟩, h3⟩, h4⟩, h5⟩, h6⟩, h7⟩, h8⟩ := h
      rcases hbad with hb | hb | hb | hb | hb | ⟨u, hu, hbu⟩ | hb
      · simp [hb] at h1
      · simp [hb] at h2
      · simp [hb] at h3
      · simp [hb] at h5
      · simp [hb] at h6
      · rw [hu] at h7
        simp [hbu] at h7
      · simp [hb] at h8
    simp [AuthFlowStore.create, mkAuthFlow, hne]
  · intro s flowId q r' s' hup
    unfold AuthFlowStore.update at hup
    cases hfind : s.rows.find? (fun r => r.id == flowId) with
    | none =>
        rw [hfind] at hup
        simp at hup
    | some r =>
        rw [hfind] at hup
        dsimp only at hup
        have hr' : r' = applyUpdate q r := by
          have := congrArg Prod.fst hup
          simpa using this.symm
        subst hr'
        refine ⟨?_, ?_, ?_, ?_, ?_, ?_, ?_⟩ <;>
          intro u hu <;> simp [applyUpdate, hu]

theorem create_validates_urls_update_does_not_witness :
    AuthFlowStore.create sampleState badUrlCreate =
      (Except.error (constructionErrors badUrlCreate), sampleState) ∧
    AuthFlow.authorize_url badUrlRow = "not a url" :=
  ⟨create_validates_urls_update_does_not.1 sampleState badUrlCreate
      (Or.inr (Or.inl rfl)),
   ((create_validates_urls_update_does_not.2 sampleState 0 badUrlUpdate badUrlRow
      { rows := [badUrlRow, sampleRow2], nextId := 2 } rfl).2.1 "not a url" rfl)⟩

/-- C3: `browserless_base_url` is a required HTTP(S) URL: the empty string
(the value a `create` call that omits the field passes on) is not a
well-formed HTTP(S) URL, any `create` whose `browserless_base_url` is not a
well-formed HTTP(S) URL fails with a validation error leaving the state
unchanged, and every row a successful `create` stages carries a well-formed
HTTP(S) `browserless_base_url`. -/
theorem browserless_base_url_required (s : StoreState) (p : CreateParams) :
    isValidHttpUrl "" = false ∧
    (isValidHttpUrl p.browserless_base_url = false →
      AuthFlowStore.create s p = (Except.error (constructionErrors p), s)) ∧
    (∀ row s', AuthFlowStore.create s p = (Except.ok row, s') →
      isValidHttpUrl row.browserless_base_url = true ∧ row ∈ s'.rows) := by
  refine ⟨rfl, ?_, ?_⟩
  · intro hb
    have hne : constructionErrors p ≠ [] := by
      intro h
      simp only [constructionErrors, List.append_eq_nil] at h
      obtain ⟨⟨⟨⟨⟨⟨⟨h1, h2⟩, h3⟩, h4⟩, h5⟩, h6⟩, h7⟩, h8⟩ := h
      simp [hb] at h8
    simp [AuthFlowStore.create, mkAuthFlow, hne]
  · intro row s' hc
    by_cases hnil : constructionErrors p = []
    · have hc' : AuthFlowStore.create s p =
          (Except.ok (newRow s.nextId p),
           { rows := s.rows ++ [newRow s.nextId p], nextId := s.nextId + 1 }) := by
        simp [AuthFlowStore.create, mkAuthFlow, hnil]
      rw [hc'] at hc
      have hrow : row = newRow s.nextId p := by
        have := congrArg Prod.fst hc
        simpa using this.symm
      have hs' : s' = { rows := s.rows ++ [newRow s.nextId p], nextId := s.nextId + 1 } := by
        have := congrArg Prod.snd hc
        simpa using this.symm
      subst hrow
      subst hs'
      constructor
      · simp only [constructionErrors, List.append_eq_nil] at hnil
        obtain ⟨⟨⟨⟨⟨⟨⟨h1, h2⟩, h3⟩, h4⟩, h5⟩, h6⟩, h7⟩, h8⟩ := hnil
        cases hv : isValidHttpUrl p.browserless_base_url with
        | false => simp [hv] at h8
        | true => simpa [newRow] using hv
      · simp
    · have hc' : AuthFlowStore.create s p = (Except.error (constructionErrors p), s) := by
        simp [AuthFlowStore.create, mkAuthFlow, hnil]
      rw [hc'] at hc
      simp at hc

theorem browserless_base_url_required_witness :
    AuthFlowStore.create sampleState emptyBrowserlessCreate =
      (Except.error (constructionErrors emptyBrowserlessCreate), sampleState) ∧
    isValidHttpUrl (AuthFlow.browserless_base_url (newRow 2 sampleCreate)) = true :=
  ⟨(browserless_base_url_required sampleState emptyBrowserlessCreate).2.1 rfl,
   ((browserless_base_url_required sampleState sampleCreate).2.2
      (newRow 2 sampleCreate)
      { rows := sampleState.rows ++ [newRow 2 sampleCreate], nextId := 3 } rfl).1⟩

/-- C5: on an existing row, `update` with `None` for `client_secret`,
`cdp_headers`, or `cdp_gui_base_url` leaves that stored value unchanged, and
no `update` call can take any of these optional fields from a present value
back to absent. -/
theorem optional_fields_cannot_be_cleared (s : StoreState) (flowId : Nat)
    (p : UpdateParams) (r r' : AuthFlow) (s' : StoreState)
    (hr : AuthFlowStore.get_by_id s flowId = some r)
    (hu : AuthFlowStore.update s flowId p = (some r', s')) :
    (p.client_secret = none → r'.client_secret = r.client_secret) ∧
    (r.client_secret ≠ none → r'.client_secret ≠ none) ∧
    (p.cdp_headers = none → r'.cdp_headers = r.cdp_headers) ∧
    (r.cdp_headers ≠ none → r'.cdp_headers ≠ none) ∧
    (p.cdp_gui_base_url = none → r'.cdp_gui_base_url = r.cdp_gui_base_url) ∧
    (r.cdp_gui_base_url ≠ none → r'.cdp_gui_base_url ≠ none) := by
  unfold AuthFlowStore.get_by_id at hr
  unfold AuthFlowStore.update at hu
  rw [hr] at hu
  dsimp only at hu
  have hr' : r' = applyUpdate p r := by
    have := congrArg Prod.fst hu
    simpa using this.symm
  subst hr'
  refine ⟨?_, ?_, ?_, ?_, ?_, ?_⟩
  · intro h
    simp [applyUpdate, h]
  · intro h
    cases hcs : p.client_secret with
    | none => simpa [applyUpdate, hcs] using h
    | some v => simp [applyUpdate, hcs]
  · intro h
    simp [applyUpdate, h]
  · intro h
    cases hch : p.cdp_headers with
    | none => simpa [applyUpdate, hch] using h
    | some v => simp [applyUpdate, hch]
  · intro h
    simp [applyUpdate, h]
  · intro h
    cases hcg : p.cdp_gui_base_url with
    | none => simpa [applyUpdate, hcg] using h
    | some v => simp [applyUpdate, hcg]

theorem optional_fields_cannot_be_cleared_witness :
    AuthFlow.cdp_headers clearAttemptRow ≠ none ∧
    AuthFlow.client_secret clearAttemptRow = AuthFlow.client_secret sampleRow :=
  ⟨(optional_fields_cannot_be_cleared sampleState 0 clearAttemptUpdate sampleRow
      clearAttemptRow clearAttemptState rfl rfl).2.2.2.1 (by decide),
   (optional_fields_cannot_be_cleared sampleState 0 clearAttemptUpdate sampleRow
      clearAttemptRow clearAttemptState rfl rfl).1 rfl⟩

/-- C6: on an existing row, `set_active(flow_id, v)` returns exactly that
row with its active flag set to `v`, and the stored state keeps every other
row (in particular every sibling sharing the name) with all of its prior
field values. -/
theorem set_active_targets_one_row (s : StoreState) (flowId : Nat) (v : Bool)
    (r : AuthFlow) (hr : AuthFlowStore.get_by_id s flowId = some r) :
    ∃ others₁ others₂,
      s.rows = others₁ ++ r :: others₂ ∧
      (∀ x ∈ others₁, (AuthFlow.id x == flowId) = false) ∧
      AuthFlowStore.set_active s flowId v =
        (some { r with is_active := v },
         { rows := others₁ ++ { r with is_active := v } :: others₂,
           nextId := s.nextId }) := by
  unfold AuthFlowStore.get_by_id at hr
  obtain ⟨l₁, l₂, hl, hall, hu⟩ :=
    updateFirst_split (fun x => x.id == flowId)
      (fun _ => { r with is_active := v }) s.rows r hr
  refine ⟨l₁, l₂, hl, hall, ?_⟩
  unfold AuthFlowStore.set_active
  rw [hr]
  dsimp only
  rw [hu]

theorem set_active_targets_one_row_witness :
    ∃ others₁ others₂,
      sampleState.rows = others₁ ++ sampleRow2 :: others₂ ∧
      (∀ x ∈ others₁, (AuthFlow.id x == 1) = false) ∧
      AuthFlowStore.set_active sampleState 1 true =
        (some { sampleRow2 with is_active := true },
         { rows := others₁ ++ { sampleRow2 with is_active := true } :: others₂,
           nextId := sampleState.nextId }) :=
  set_active_targets_one_row sampleState 1 true sampleRow2 rfl

/-- C8: when the identifier (or, for name lookup, the name) does not resolve
to any stored row, `get_by_id`, `get_by_name_first`, `set_active` and
`update` all return an absent result rather than raising, and `set_active`
and `update` leave the stored state unchanged. -/
theorem missing_id_returns_absent (s : StoreState) (flowId : Nat) (v : Bool)
    (p : UpdateParams) (name : String) (ia : Option Bool)
    (hid : ∀ r ∈ s.rows, (AuthFlow.id r == flowId) = false)
    (hname : ∀ r ∈ s.rows, (AuthFlow.name r == name) = false) :
    AuthFlowStore.get_by_id s flowId = none ∧
    AuthFlowStore.get_by_name_first s name ia = none ∧
    AuthFlowStore.set_active s flowId v = (none, s) ∧
    AuthFlowStore.update s flowId p = (none, s) := by
  have hfind : s.rows.find? (fun r => r.id == flowId) = none :=
    List.find?_eq_none.mpr (fun x hx => by simp [hid x hx])
  have hfilter : s.rows.filter (matchesFilter name ia) = [] :=
    List.filter_eq_nil_iff.mpr (fun a ha => by simp [matchesFilter, hname a ha])
  refine ⟨hfind, ?_, ?_, ?_⟩
  · unfold AuthFlowStore.get_by_name_first
    rw [hfilter]
    rfl
  · unfold AuthFlowStore.set_active
    rw [hfind]
  · unfold AuthFlowStore.update
    rw [hfind]

theorem missing_id_returns_absent_witness :
    AuthFlowStore.get_by_id sampleState 99 = none ∧
    AuthFlowStore.get_by_name_first sampleState "unknown-name" none = none ∧
    AuthFlowStore.set_active sampleState 99 true = (none, sampleState) ∧
    AuthFlowStore.update sampleState 99 badUrlUpdate = (none, sampleState) :=
  missing_id_returns_absent sampleState 99 true badUrlUpdate "unknown-name" none
    (by decide) (by decide)

/-- C9: after a successful `create`, `get_by_id` with the identifier of the
returned entity yields that same row, every field identical. -/
theorem create_get_by_id_roundtrip (s : StoreState) (p : CreateParams)
    (row : AuthFlow) (s' : StoreState)
    (hfresh : ∀ r ∈ s.rows, AuthFlow.id r < s.nextId)
    (hc : AuthFlowStore.create s p = (Except.ok row, s')) :
    AuthFlowStore.get_by_id s' row.id = some row := by
  by_cases hnil : constructionErrors p = []
  · have hc' : AuthFlowStore.create s p =
        (Except.ok (newRow s.nextId p),
         { rows := s.rows ++ [newRow s.nextId p], nextId := s.nextId + 1 }) := by
      simp [AuthFlowStore.create, mkAuthFlow, hnil]
    rw [hc'] at hc
    have hrow : row = newRow s.nextId p := by
      have := congrArg Prod.fst hc
      simpa using this.symm
    have hs' : s' = { rows := s.rows ++ [newRow s.nextId p], nextId := s.nextId + 1 } := by
      have := congrArg Prod.snd hc
      simpa using this.symm
    subst hrow
    subst hs'
    unfold AuthFlowStore.get_by_id
    dsimp only
    rw [List.find?_append]
    have h1 : s.rows.find? (fun r => r.id == AuthFlow.id (newRow s.nextId p)) = none :=
      List.find?_eq_none.mpr (fun x hx => by
        have hne : AuthFlow.id x ≠ s.nextId := Nat.ne_of_lt (hfresh x hx)
        simp [newRow, hne])
    rw [h1]
    simp [List.find?, newRow]
  · have hc' : AuthFlowStore.create s p = (Except.error (constructionErrors p), s) := by
      simp [AuthFlowStore.create, mkAuthFlow, hnil]
    rw [hc'] at hc
    simp at hc

theorem create_get_by_id_roundtrip_witness :
    AuthFlowStore.get_by_id
      { rows := sampleState.rows ++ [newRow 2 sampleCreate], nextId := 3 }
      (AuthFlow.id (newRow 2 sampleCreate)) = some (newRow 2 sampleCreate) :=
  create_get_by_id_roundtrip sampleState sampleCreate (newRow 2 sampleCreate)
    { rows := sampleState.rows ++ [newRow 2 sampleCreate], nextId := 3 }
    (by decide) rfl

/-- Counterexample to C7 as stated: with the default page size 50, a name
shared by 51 rows (50 active, then 1 inactive) makes
`list_by_name(name, is_active=None)` omit the inactive row, while the
`is_active=False` call returns it — so the unfiltered result is not the
union of the two filtered results. -/
theorem list_union_counterexample :
    pageRow 50 ∈ AuthFlowStore.list_by_name pageState "wemoney-login" (some false) 50 0 ∧
    pageRow 50 ∉ AuthFlowStore.list_by_name pageState "wemoney-login" none 50 0 := by
  decide

/-- C7 (amended): whenever at most `limit` rows match the name (with
`offset = 0`; in particular, with the default `limit = 50`, up to 50 rows),
`list_by_name(name, is_active=None)` returns exactly the union of the
`is_active=True` and `is_active=False` results, and those two filtered
results are disjoint. -/
theorem list_by_name_union (s : StoreState) (name : String) (limit : Nat)
    (hN : (s.rows.filter (matchesFilter name none)).length ≤ limit) :
    (∀ r, r ∈ AuthFlowStore.list_by_name s name none limit 0 ↔
       (r ∈ AuthFlowStore.list_by_name s name (some true) limit 0 ∨
        r ∈ AuthFlowStore.list_by_name s name (some false) limit 0)) ∧
    (∀ r, ¬(r ∈ AuthFlowStore.list_by_name s name (some true) limit 0 ∧
            r ∈ AuthFlowStore.list_by_name s name (some false) limit 0)) := by
  have hsubT : List.Sublist (s.rows.filter (matchesFilter name (some true)))
      (s.rows.filter (matchesFilter name none)) :=
    List.monotone_filter_right _ (fun a ha => by
      simp [matchesFilter] at ha ⊢
      exact ha.1)
  have hsubF : List.Sublist (s.rows.filter (matchesFilter name (some false)))
      (s.rows.filter (matchesFilter name none)) :=
    List.monotone_filter_right _ (fun a ha => by
      simp [matchesFilter] at ha ⊢
      exact ha.1)
  have eN : AuthFlowStore.list_by_name s name none limit 0 =
      s.rows.filter (matchesFilter name none) := by
    simp [AuthFlowStore.list_by_name, List.take_of_length_le hN]
  have eT : AuthFlowStore.list_by_name s name (some true) limit 0 =
      s.rows.filter (matchesFilter name (some true)) := by
    simp [AuthFlowStore.list_by_name,
      List.take_of_length_le (le_trans hsubT.length_le hN)]
  have eF : AuthFlowStore.list_by_name s name (some false) limit 0 =
      s.rows.filter (matchesFilter name (some false)) := by
    simp [AuthFlowStore.list_by_name,
      List.take_of_length_le (le_trans hsubF.length_le hN)]
  rw [eN, eT, eF]
  constructor
  · intro r
    simp only [List.mem_filter, matchesFilter]
    by_cases hb : r.is_active = true <;> simp [hb]
  · intro r hboth
    obtain ⟨hT, hF⟩ := hboth
    have h1 := (List.mem_filter.mp hT).2
    have h2 := (List.mem_filter.mp hF).2
    simp [matchesFilter] at h1 h2
    rw [h1.2] at h2
    exact absurd h2.2 (by simp)

theorem list_by_name_union_witness :
    (∀ r, r ∈ AuthFlowStore.list_by_name sampleState "wemoney-login" none 50 0 ↔
       (r ∈ AuthFlowStore.list_by_name sampleState "wemoney-login" (some true) 50 0 ∨
        r ∈ AuthFlowStore.list_by_name sampleState "wemoney-login" (some false) 50 0)) ∧
    (∀ r, ¬(r ∈ AuthFlowStore.list_by_name sampleState "wemoney-login" (some true) 50 0 ∧
            r ∈ AuthFlowStore.list_by_name sampleState "wemoney-login" (some false) 50 0)) :=
  list_by_name_union sampleState "wemoney-login" 50 (by decide)

/-- C10: `update(flow_id, is_active=v, every other field=None)` returns the
same value and produces the same state as `set_active(flow_id, v)`,
including the absent result on a missing identifier. -/
theorem update_is_active_eq_set_active (s : StoreState) (flowId : Nat) (v : Bool) :
    AuthFlowStore.update s flowId (onlyActiveParams v) =
      AuthFlowStore.set_active s flowId v := by
  unfold AuthFlowStore.update AuthFlowStore.set_active
  cases h : s.rows.find? (fun r => r.id == flowId) with
  | none => rfl
  | some r =>
      dsimp only
      rw [applyUpdate_onlyActive]
